import Mathlib

/-!
Shallow embedding of the GreenEnergy grid-simulation core
(`src/backend/app/simulation/...` and `src/backend/app/models/grid_state.py`).

Numeric values are modelled over an arbitrary linear ordered field for the
stateless / rational components (battery, gas plant, wind turbine, grid
controller), instantiated at `ℚ` for executable witnesses and at `ℝ` inside
the simulation engine, whose demand and solar models use `Real.sin`.
Python float arithmetic is modelled as exact field arithmetic; decimal
literals of the source are written as the exact rationals they denote.
The process-global random generator of `WeatherSystem.update` is modelled by
passing the drawn values explicitly (`WeatherDraws`), so a tick is a
deterministic function of the engine state and of the draws of that tick.
-/

section Components

variable {α : Type} [LinearOrderedField α]

/-- Battery energy storage system (`energy_sources/battery.py`). -/
structure Battery (α : Type) where
  max_capacity_mwh : α
  max_charge_rate_mw : α
  max_discharge_rate_mw : α
  round_trip_efficiency : α
  current_charge_mwh : α
  total_cycles : α
deriving Repr

/-- `Battery.__init__`: the starting charge is clamped to the capacity. -/
def Battery.init (max_capacity_mwh max_charge_rate_mw max_discharge_rate_mw
    round_trip_efficiency initial_charge_mwh : α) : Battery α :=
  { max_capacity_mwh := max_capacity_mwh
    max_charge_rate_mw := max_charge_rate_mw
    max_discharge_rate_mw := max_discharge_rate_mw
    round_trip_efficiency := round_trip_efficiency
    current_charge_mwh := min initial_charge_mwh max_capacity_mwh
    total_cycles := 0 }

/-- `Battery.charge`: returns the updated battery and the actual power
consumed from the grid. -/
def Battery.charge (b : Battery α) (power_mw duration_hours : α) :
    Battery α × α :=
  let actual_power := min power_mw b.max_charge_rate_mw
  let energy_stored := actual_power * duration_hours * b.round_trip_efficiency
  let space_available := b.max_capacity_mwh - b.current_charge_mwh
  let energy_stored := min energy_stored space_available
  let b' := { b with
    current_charge_mwh := b.current_charge_mwh + energy_stored
    total_cycles := b.total_cycles + energy_stored / b.max_capacity_mwh }
  (b', if duration_hours > 0 then
    energy_stored / (duration_hours * b.round_trip_efficiency) else 0)

/-- `Battery.discharge`: returns the updated battery and the actual power
supplied to the grid. -/
def Battery.discharge (b : Battery α) (power_mw duration_hours : α) :
    Battery α × α :=
  let actual_power := min power_mw b.max_discharge_rate_mw
  let energy_needed := actual_power * duration_hours / b.round_trip_efficiency
  let energy_available := b.current_charge_mwh
  let energy_used := min energy_needed energy_available
  let b' := { b with
    current_charge_mwh := b.current_charge_mwh - energy_used
    total_cycles := b.total_cycles + energy_used / b.max_capacity_mwh }
  (b', if duration_hours > 0 then
    energy_used * b.round_trip_efficiency / duration_hours else 0)

/-- Natural gas backup power plant (`energy_sources/gas_plant.py`). -/
structure GasPlant (α : Type) where
  capacity_mw : α
  fuel_cost_per_mwh : α
  co2_per_mwh_tons : α
  ramp_rate_mw_per_min : α
  current_output_mw : α
  total_runtime_hours : α
  total_fuel_cost_eur : α
  total_co2_tons : α
  activation_count : ℕ
deriving Repr

/-- `GasPlant.__init__` with fresh counters. -/
def GasPlant.init (capacity_mw fuel_cost_per_mwh co2_per_mwh_tons
    ramp_rate_mw_per_min : α) : GasPlant α :=
  { capacity_mw := capacity_mw
    fuel_cost_per_mwh := fuel_cost_per_mwh
    co2_per_mwh_tons := co2_per_mwh_tons
    ramp_rate_mw_per_min := ramp_rate_mw_per_min
    current_output_mw := 0
    total_runtime_hours := 0
    total_fuel_cost_eur := 0
    total_co2_tons := 0
    activation_count := 0 }

/-- `GasPlant.set_output`: ramp-rate-limited output change; returns the
updated plant and the actual output achieved. -/
def GasPlant.set_output (g : GasPlant α) (target_mw duration_hours : α) :
    GasPlant α × α :=
  let target_mw := min target_mw g.capacity_mw
  let duration_minutes := duration_hours * 60
  let max_change := g.ramp_rate_mw_per_min * duration_minutes
  let actual_output :=
    if target_mw > g.current_output_mw then
      min target_mw (g.current_output_mw + max_change)
    else
      max target_mw (g.current_output_mw - max_change)
  let activation_count :=
    if g.current_output_mw = 0 ∧ actual_output > 0 then
      g.activation_count + 1
    else g.activation_count
  let g' := { g with
    current_output_mw := actual_output
    activation_count := activation_count }
  let g' :=
    if actual_output > 0 then
      let energy_mwh := actual_output * duration_hours
      { g' with
        total_runtime_hours := g'.total_runtime_hours + duration_hours
        total_fuel_cost_eur :=
          g'.total_fuel_cost_eur + energy_mwh * g.fuel_cost_per_mwh
        total_co2_tons :=
          g'.total_co2_tons + energy_mwh * g.co2_per_mwh_tons }
    else g'
  (g', actual_output)

/-- `GasPlant.shutdown`: emergency shutdown, forces output to 0. -/
def GasPlant.shutdown (g : GasPlant α) : GasPlant α :=
  { g with current_output_mw := 0 }

/-- Wind turbine array (`energy_sources/wind_turbine.py`); thresholds
CUT_IN_SPEED = 3.0, RATED_SPEED = 12.0, CUT_OUT_SPEED = 25.0 m/s. -/
structure WindTurbine (α : Type) where
  rated_power_mw : α
  num_turbines : ℕ
  total_capacity_mw : α
deriving Repr

/-- `WindTurbine.__init__`: total capacity = per-turbine rating × count. -/
def WindTurbine.init (rated_power_mw : α) (num_turbines : ℕ) : WindTurbine α :=
  { rated_power_mw := rated_power_mw
    num_turbines := num_turbines
    total_capacity_mw := rated_power_mw * (num_turbines : α) }

/-- `WindTurbine.calculate_power`: power output and status for all turbines. -/
def WindTurbine.calculate_power (t : WindTurbine α) (wind_speed : α) :
    α × String :=
  if wind_speed ≥ 25 then (0, "shutdown_storm")
  else if wind_speed < 3 then (0, "insufficient_wind")
  else if 12 ≤ wind_speed ∧ wind_speed < 25 then
    (t.total_capacity_mw, "rated_power")
  else
    let power_fraction := ((wind_speed - 3) / (12 - 3)) ^ 3
    (t.total_capacity_mw * power_fraction, "ramping")

/-- Result of one `GridController.balance_grid` call (the returned dict). -/
structure BalanceResult (α : Type) where
  demand : α
  wind_output : α
  solar_output : α
  battery_action : α
  gas_output : α
  total_supply : α
  balance : α
  renewable_percent : α
  grid_stable : Bool
deriving Repr

/-- Grid controller state (`grid_controller.py`): only the `gas_active` flag. -/
structure GridController where
  gas_active : Bool
deriving Repr

/-- `GridController.balance_grid`: balances supply and demand, mutating the
battery, the gas plant and the controller flag; returns the balance result
together with the updated battery, gas plant and controller. -/
def GridController.balance_grid (c : GridController)
    (demand_mw wind_output solar_output : α)
    (battery : Battery α) (gas_plant : GasPlant α) (duration_hours : α) :
    BalanceResult α × Battery α × GasPlant α × GridController :=
  let renewable_supply := wind_output + solar_output
  let balance := renewable_supply - demand_mw
  -- battery_action, gas_output, updated battery / gas plant / flag
  let step : α × α × Battery α × GasPlant α × Bool :=
    if balance > 0 then
      let surplus := balance
      let p := battery.charge surplus duration_hours
      (-p.2, 0, p.1, gas_plant, c.gas_active)
    else
      let deficit := |balance|
      let p := battery.discharge deficit duration_hours
      let deficit := deficit - p.2
      if deficit > 1 / 10 then
        let q := gas_plant.set_output deficit duration_hours
        (p.2, q.2, p.1, q.1, true)
      else
        let q := gas_plant.set_output 0 duration_hours
        (p.2, 0, p.1, q.1, false)
  let battery_action := step.1
  let gas_output := step.2.1
  let total_supply := renewable_supply + battery_action + gas_output
  let renewable_percent :=
    if total_supply > 0 then
      let renewable_contribution := renewable_supply + max 0 battery_action
      renewable_contribution / total_supply * 100
    else 0
  (⟨demand_mw, wind_output, solar_output, battery_action, gas_output,
    total_supply, total_supply - demand_mw, renewable_percent,
    decide (total_supply ≥ demand_mw)⟩,
   step.2.2.1, step.2.2.2.1, ⟨step.2.2.2.2⟩)


/-- One battery operation issued by a caller (the operations the controller
can perform on the store). -/
inductive BatteryOp (α : Type) where
  | charge (power_mw duration_hours : α)
  | discharge (power_mw duration_hours : α)

/-- Argument validity of an operation: requested power and duration are
nonnegative. -/
def BatteryOp.valid : BatteryOp α → Prop
  | .charge power_mw duration_hours => 0 ≤ power_mw ∧ 0 ≤ duration_hours
  | .discharge power_mw duration_hours => 0 ≤ power_mw ∧ 0 ≤ duration_hours

instance : ∀ op : BatteryOp α, Decidable op.valid
  | .charge p d => inferInstanceAs (Decidable (0 ≤ p ∧ 0 ≤ d))
  | .discharge p d => inferInstanceAs (Decidable (0 ≤ p ∧ 0 ≤ d))

/-- State effect of one battery operation. -/
def Battery.apply (b : Battery α) : BatteryOp α → Battery α
  | .charge power_mw duration_hours => (b.charge power_mw duration_hours).1
  | .discharge power_mw duration_hours =>
      (b.discharge power_mw duration_hours).1

/-- State reached after a finite sequence of battery operations. -/
def Battery.run (b : Battery α) (ops : List (BatteryOp α)) : Battery α :=
  ops.foldl Battery.apply b

end Components

section RealSide

/-- Power demand calculator (`demand_model.py`). -/
structure DemandModel where
  base_load_mw : ℝ
  peak_multiplier : ℝ
  industrial_load_mw : ℝ
  industrial_enabled : Bool

/-- Breakdown dict returned by `DemandModel.calculate_demand`. -/
structure DemandBreakdown where
  base_load : ℝ
  industrial_load : ℝ
  heating_cooling_load : ℝ
  total_demand : ℝ

/-- `DemandModel._residential_curve`: residential load with sine peaks gated
on the hour windows and a night-time reduction factor. -/
noncomputable def DemandModel.residential_curve (m : DemandModel) (hour : ℝ) :
    ℝ :=
  let morning_peak :=
    if 6 ≤ hour ∧ hour ≤ 10 then Real.sin ((hour - 8) * Real.pi / 12) else 0
  let evening_peak :=
    if 16 ≤ hour ∧ hour ≤ 22 then Real.sin ((hour - 18) * Real.pi / 12) else 0
  let night_factor := if (0 ≤ hour ∧ hour < 6) ∨ hour ≥ 23 then 0.6 else 1
  let peak_factor := max morning_peak evening_peak
  let variation := (m.peak_multiplier - 1) * max 0 peak_factor
  m.base_load_mw * night_factor * (1 + variation)

/-- `DemandModel._temperature_load`: heating/cooling load, daytime only. -/
noncomputable def DemandModel.temperature_load (_m : DemandModel)
    (temp hour : ℝ) : ℝ :=
  if hour < 6 ∨ hour ≥ 22 then 0
  else if temp < 10 then min ((10 - temp) * 3) 50
  else if temp > 20 then min ((temp - 20) * 2) 30
  else 0

/-- `DemandModel.calculate_demand`. -/
noncomputable def DemandModel.calculate_demand (m : DemandModel)
    (time_of_day temperature : ℝ) : DemandBreakdown :=
  let residential := m.residential_curve time_of_day
  let industrial := if m.industrial_enabled then m.industrial_load_mw else 0
  let heating_cooling := m.temperature_load temperature time_of_day
  ⟨residential, industrial, heating_cooling,
    residential + industrial + heating_cooling⟩

/-- Solar panel array (`energy_sources/solar_array.py`). -/
structure SolarArray where
  capacity_mw : ℝ
  panel_efficiency : ℝ

/-- `SolarArray.calculate_power`. -/
noncomputable def SolarArray.calculate_power (s : SolarArray)
    (time_of_day cloud_cover : ℝ) : ℝ × String :=
  if time_of_day < 6 ∨ time_of_day ≥ 18 then (0, "nighttime")
  else
    let hours_since_sunrise := time_of_day - 6
    let angle_radians := hours_since_sunrise / 12 * Real.pi
    let sun_elevation := Real.sin angle_radians
    let cloud_factor := 1 - cloud_cover * 0.8
    let base_power := s.capacity_mw * sun_elevation
    let actual_power := base_power * cloud_factor
    let status :=
      if cloud_cover > 0.7 then "cloudy"
      else if cloud_cover > 0.3 then "partly_cloudy"
      else "clear"
    (actual_power, status)

/-- Weather state (`weather_system.py`). -/
structure WeatherSystem where
  wind_speed : ℝ
  cloud_cover : ℝ
  temperature : ℝ

/-- Values drawn from the process-wide random generator during one
`WeatherSystem.update` call: the uniform(-0.8, 0.8) wind change, and the
cloud / temperature changes when their probability gates (0.15 and 0.05)
fire, `none` when they do not. -/
structure WeatherDraws where
  wind_change : ℝ
  cloud_change : Option ℝ
  temp_change : Option ℝ

/-- `WeatherSystem.update` with the random draws passed explicitly. -/
noncomputable def WeatherSystem.update (w : WeatherSystem)
    (d : WeatherDraws) : WeatherSystem :=
  let mean_wind : ℝ := 8
  let drift := (mean_wind - w.wind_speed) * 0.05
  let change := d.wind_change + drift
  let wind_speed := max 0 (min 30 (w.wind_speed + change))
  let cloud_cover :=
    match d.cloud_change with
    | some c => max 0 (min 1 (w.cloud_cover + c))
    | none => w.cloud_cover
  let temperature :=
    match d.temp_change with
    | some c => max (-10) (min 35 (w.temperature + c))
    | none => w.temperature
  ⟨wind_speed, cloud_cover, temperature⟩

/-- `WeatherSystem.set_wind`: manual override, clamped to [0, 30]. -/
noncomputable def WeatherSystem.set_wind (w : WeatherSystem) (speed : ℝ) :
    WeatherSystem :=
  { w with wind_speed := max 0 (min 30 speed) }

/-- Simulation clock (`time_manager.py`). -/
structure TimeManager where
  tick_duration_minutes : ℝ
  current_hour : ℝ
  current_day : ℕ
  total_ticks : ℕ

/-- `TimeManager.time_of_day` property. -/
def TimeManager.time_of_day (t : TimeManager) : ℝ := t.current_hour

/-- `TimeManager.tick`: advance one tick, rolling over at hour 24. -/
noncomputable def TimeManager.tick (t : TimeManager) : TimeManager :=
  let hours_per_tick := t.tick_duration_minutes / 60
  let current_hour := t.current_hour + hours_per_tick
  if current_hour ≥ 24 then
    { t with
      current_hour := current_hour - 24
      current_day := t.current_day + 1
      total_ticks := t.total_ticks + 1 }
  else
    { t with current_hour := current_hour, total_ticks := t.total_ticks + 1 }

end RealSide

section GridStateModels

/-- Operational status enumeration (`models/grid_state.py`). -/
inductive EnergySourceStatus where
  | online
  | offline
  | maintenance
  | standby
deriving Repr, DecidableEq

/-- `WeatherState` pydantic model (plain data). -/
structure WeatherState where
  wind_speed : ℝ
  cloud_cover : ℝ
  temperature : ℝ
  time_of_day : ℝ

/-- Pydantic validation of `WeatherState`: field bounds
`wind_speed ∈ [0, 50]`, `cloud_cover ∈ [0, 1]`, `temperature ∈ [-30, 50]`,
`time_of_day ∈ [0, 24]`; construction raises (`none`) outside them. -/
noncomputable def mkWeatherState (wind_speed cloud_cover temperature
    time_of_day : ℝ) : Option WeatherState :=
  if 0 ≤ wind_speed ∧ wind_speed ≤ 50 ∧ 0 ≤ cloud_cover ∧ cloud_cover ≤ 1 ∧
      -30 ≤ temperature ∧ temperature ≤ 50 ∧ 0 ≤ time_of_day ∧ time_of_day ≤ 24
  then some ⟨wind_speed, cloud_cover, temperature, time_of_day⟩
  else none

/-- `DemandState` pydantic model. -/
structure DemandState where
  base_load : ℝ
  industrial_load : ℝ
  heating_cooling_load : ℝ

/-- Pydantic validation of `DemandState`: every load is `≥ 0`. -/
noncomputable def mkDemandState (base_load industrial_load
    heating_cooling_load : ℝ) : Option DemandState :=
  if 0 ≤ base_load ∧ 0 ≤ industrial_load ∧ 0 ≤ heating_cooling_load
  then some ⟨base_load, industrial_load, heating_cooling_load⟩
  else none

/-- `WindTurbineState` pydantic model (fields the engine passes, plus the
auto-computed `capacity_mw`). -/
structure WindTurbineState where
  num_turbines : ℕ
  turbine_capacity_mw : ℝ
  capacity_mw : ℝ
  current_output_mw : ℝ
  status : EnergySourceStatus

/-- Pydantic validation of `WindTurbineState`: `capacity_mw` is auto-computed
as `num_turbines * turbine_capacity_mw`; bounds `num_turbines > 0`,
`turbine_capacity_mw > 0`, `capacity_mw > 0` and `current_output_mw ≥ 0`
(the latter two inherited from `EnergySource`). -/
noncomputable def mkWindTurbineState (num_turbines : ℕ)
    (turbine_capacity_mw current_output_mw : ℝ)
    (status : EnergySourceStatus) : Option WindTurbineState :=
  let capacity_mw := (num_turbines : ℝ) * turbine_capacity_mw
  if 0 < num_turbines ∧ 0 < turbine_capacity_mw ∧ 0 < capacity_mw ∧
      0 ≤ current_output_mw
  then some ⟨num_turbines, turbine_capacity_mw, capacity_mw,
    current_output_mw, status⟩
  else none

/-- `SolarArrayState` pydantic model (fields the engine passes). -/
structure SolarArrayState where
  capacity_mw : ℝ
  current_output_mw : ℝ
  status : EnergySourceStatus

/-- Pydantic validation of `SolarArrayState` (`EnergySource` bounds):
`capacity_mw > 0` and `current_output_mw ≥ 0`. -/
noncomputable def mkSolarArrayState (capacity_mw current_output_mw : ℝ)
    (status : EnergySourceStatus) : Option SolarArrayState :=
  if 0 < capacity_mw ∧ 0 ≤ current_output_mw
  then some ⟨capacity_mw, current_output_mw, status⟩
  else none

/-- `BatteryState` pydantic model (fields the engine passes). -/
structure BatteryState where
  capacity_mw : ℝ
  max_capacity_mwh : ℝ
  current_charge_mwh : ℝ
  current_output_mw : ℝ
  status : EnergySourceStatus

/-- Pydantic validation of `BatteryState`: inherited `EnergySource` bounds
`capacity_mw > 0` and `current_output_mw ≥ 0`, plus `max_capacity_mwh > 0`
and `current_charge_mwh ≥ 0`. -/
noncomputable def mkBatteryState (capacity_mw max_capacity_mwh
    current_charge_mwh current_output_mw : ℝ)
    (status : EnergySourceStatus) : Option BatteryState :=
  if 0 < capacity_mw ∧ 0 ≤ current_output_mw ∧ 0 < max_capacity_mwh ∧
      0 ≤ current_charge_mwh
  then some ⟨capacity_mw, max_capacity_mwh, current_charge_mwh,
    current_output_mw, status⟩
  else none

/-- `GasPlantState` pydantic model (fields the engine passes). -/
structure GasPlantState where
  capacity_mw : ℝ
  current_output_mw : ℝ
  status : EnergySourceStatus

/-- Pydantic validation of `GasPlantState` (`EnergySource` bounds). -/
noncomputable def mkGasPlantState (capacity_mw current_output_mw : ℝ)
    (status : EnergySourceStatus) : Option GasPlantState :=
  if 0 < capacity_mw ∧ 0 ≤ current_output_mw
  then some ⟨capacity_mw, current_output_mw, status⟩
  else none

/-- `Metrics` pydantic model (fields the engine passes). -/
structure Metrics where
  renewable_energy_percent : ℝ
  co2_emissions_kg : ℝ
  operational_cost_eur : ℝ
  grid_uptime_percent : ℝ
  gas_activation_count : ℕ
  battery_cycles : ℝ

/-- Pydantic validation of `Metrics`: percentages in [0, 100], totals and
cycle count nonnegative. -/
noncomputable def mkMetrics (renewable_energy_percent co2_emissions_kg
    operational_cost_eur grid_uptime_percent : ℝ) (gas_activation_count : ℕ)
    (battery_cycles : ℝ) : Option Metrics :=
  if 0 ≤ renewable_energy_percent ∧ renewable_energy_percent ≤ 100 ∧
      0 ≤ co2_emissions_kg ∧ 0 ≤ operational_cost_eur ∧
      0 ≤ grid_uptime_percent ∧ grid_uptime_percent ≤ 100 ∧
      0 ≤ battery_cycles
  then some ⟨renewable_energy_percent, co2_emissions_kg,
    operational_cost_eur, grid_uptime_percent, gas_activation_count,
    battery_cycles⟩
  else none

/-- `GridState` snapshot (wall-clock `timestamp` omitted: it carries no
simulation content). Field `simulation_day` is validated `≥ 1`. -/
structure GridState where
  simulation_day : ℕ
  weather : WeatherState
  demand : DemandState
  wind : WindTurbineState
  solar : SolarArrayState
  battery : BatteryState
  gas : GasPlantState
  metrics : Metrics

end GridStateModels

section Engine

/-- Cumulative metrics dict owned by the engine (`simulation_engine.py`).
Python stores all values as numbers in one dict; the counter entries are
kept as reals to mirror that. -/
structure CumulativeMetrics where
  total_renewable_mwh : ℝ
  total_demand_mwh : ℝ
  total_co2_kg : ℝ
  total_cost_eur : ℝ
  gas_activations : ℝ
  uptime_ticks : ℝ
  total_ticks : ℝ

/-- Main simulation orchestrator state (`SimulationEngine.__init__`
component instances). -/
structure SimulationEngine where
  time : TimeManager
  weather : WeatherSystem
  demand : DemandModel
  wind : WindTurbine ℝ
  solar : SolarArray
  battery : Battery ℝ
  gas : GasPlant ℝ
  controller : GridController
  cumulative_metrics : CumulativeMetrics

/-- `SimulationEngine.__init__` with the constructor defaults of every
component. -/
noncomputable def SimulationEngine.init : SimulationEngine where
  time := ⟨15, 0, 1, 0⟩
  weather := ⟨8, 0.3, 12⟩
  demand := ⟨300, 1.5, 50, true⟩
  wind := WindTurbine.init 9 50
  solar := ⟨200, 0.2⟩
  battery := Battery.init 400 100 100 0.95 200
  gas := GasPlant.init 300 150 0.5 10
  controller := ⟨false⟩
  cumulative_metrics := ⟨0, 0, 0, 0, 0, 0, 0⟩

/-- `SimulationEngine._calculate_renewable_percent`. -/
noncomputable def SimulationEngine.calculate_renewable_percent
    (e : SimulationEngine) : ℝ :=
  if e.cumulative_metrics.total_demand_mwh = 0 then 0
  else e.cumulative_metrics.total_renewable_mwh /
    e.cumulative_metrics.total_demand_mwh * 100

/-- `SimulationEngine._calculate_uptime_percent`. -/
noncomputable def SimulationEngine.calculate_uptime_percent
    (e : SimulationEngine) : ℝ :=
  if e.cumulative_metrics.total_ticks = 0 then 100
  else e.cumulative_metrics.uptime_ticks /
    e.cumulative_metrics.total_ticks * 100

/-- `SimulationEngine.tick` with the random draws of the weather update
passed explicitly. Mirrors the statement order of the source: weather
update, generation, demand, grid balancing, cumulative-metric update, then
snapshot assembly (where pydantic validation may raise, modelled as
`none`), and only on a successfully built snapshot the clock advance.
State mutated before the failure point persists, exactly as in Python. -/
noncomputable def SimulationEngine.tick (e : SimulationEngine)
    (draws : WeatherDraws) : SimulationEngine × Option GridState :=
  let weather := e.weather.update draws
  let wp := e.wind.calculate_power weather.wind_speed
  let sp := e.solar.calculate_power e.time.time_of_day weather.cloud_cover
  let wind_power := wp.1
  let solar_power := sp.1
  let demand_data := e.demand.calculate_demand e.time.time_of_day
    weather.temperature
  let total_demand := demand_data.total_demand
  let br := e.controller.balance_grid total_demand wind_power solar_power
    e.battery e.gas (e.time.tick_duration_minutes / 60)
  let balance_result := br.1
  let battery' := br.2.1
  let gas' := br.2.2.1
  let tick_hours := e.time.tick_duration_minutes / 60
  let renewable_energy := (wind_power + solar_power) * tick_hours
  let total_energy := total_demand * tick_hours
  let m := e.cumulative_metrics
  let m := { m with
    total_renewable_mwh := m.total_renewable_mwh + renewable_energy
    total_demand_mwh := m.total_demand_mwh + total_energy
    total_co2_kg := m.total_co2_kg + gas'.total_co2_tons * 1000
    total_cost_eur := m.total_cost_eur + gas'.total_fuel_cost_eur
    total_ticks := m.total_ticks + 1
    uptime_ticks := m.uptime_ticks +
      if balance_result.grid_stable then 1 else 0 }
  let e' := { e with
    weather := weather
    battery := battery'
    gas := gas'
    controller := br.2.2.2
    cumulative_metrics := m }
  let state : Option GridState := do
    let ws ← mkWeatherState weather.wind_speed weather.cloud_cover
      weather.temperature e.time.time_of_day
    let ds ← mkDemandState demand_data.base_load demand_data.industrial_load
      demand_data.heating_cooling_load
    let wts ← mkWindTurbineState e.wind.num_turbines e.wind.rated_power_mw
      wind_power
      (if wind_power > 0 then .online else .standby)
    let ss ← mkSolarArrayState e.solar.capacity_mw solar_power
      (if solar_power > 0 then .online else .standby)
    let bs ← mkBatteryState e.battery.max_discharge_rate_mw
      e.battery.max_capacity_mwh battery'.current_charge_mwh
      balance_result.battery_action .online
    let gs ← mkGasPlantState e.gas.capacity_mw gas'.current_output_mw
      (if gas'.current_output_mw > 0 then .online else .standby)
    let ms ← mkMetrics e'.calculate_renewable_percent m.total_co2_kg
      m.total_cost_eur e'.calculate_uptime_percent gas'.activation_count
      battery'.total_cycles
    if 1 ≤ e.time.current_day then
      pure (⟨e.time.current_day, ws, ds, wts, ss, bs, gs, ms⟩ : GridState)
    else none
  match state with
  | some s => ({ e' with time := e'.time.tick }, some s)
  | none => (e', none)

/-- Inbound control surface: set the wind speed on the engine-owned
weather system (`WeatherSystem.set_wind` invoked through the transport
layer). -/
noncomputable def SimulationEngine.set_wind (e : SimulationEngine)
    (speed : ℝ) : SimulationEngine :=
  { e with weather := e.weather.set_wind speed }

end Engine

section Theorems

variable {α : Type} [LinearOrderedField α]

/-- Helper: the output reached by `GasPlant.set_output` is the
capacity-clamped target moved toward from the current output by at most the
ramp allowance. -/
theorem GasPlant.set_output_current_eq (g : GasPlant α) (t d : α) :
    (g.set_output t d).1.current_output_mw =
      (if min t g.capacity_mw > g.current_output_mw then
        min (min t g.capacity_mw)
          (g.current_output_mw + g.ramp_rate_mw_per_min * (d * 60))
      else
        max (min t g.capacity_mw)
          (g.current_output_mw - g.ramp_rate_mw_per_min * (d * 60))) := by
  simp only [GasPlant.set_output]
  split_ifs <;> rfl

/-- Helper: a `set_output 0` command from an output above the ramp
allowance only ramps down by the allowance and keeps accruing runtime, fuel
cost and emissions on the residual output. -/
theorem GasPlant.set_output_zero_eval (g : GasPlant α) (d : α)
    (hramp : 0 ≤ g.ramp_rate_mw_per_min) (hd : 0 ≤ d)
    (hcap : 0 ≤ g.capacity_mw)
    (hout : g.ramp_rate_mw_per_min * (d * 60) < g.current_output_mw) :
    (g.set_output 0 d).1 = { g with
      current_output_mw :=
        g.current_output_mw - g.ramp_rate_mw_per_min * (d * 60)
      total_runtime_hours := g.total_runtime_hours + d
      total_fuel_cost_eur := g.total_fuel_cost_eur +
        (g.current_output_mw - g.ramp_rate_mw_per_min * (d * 60)) * d *
          g.fuel_cost_per_mwh
      total_co2_tons := g.total_co2_tons +
        (g.current_output_mw - g.ramp_rate_mw_per_min * (d * 60)) * d *
          g.co2_per_mwh_tons } ∧
    (g.set_output 0 d).2 =
      g.current_output_mw - g.ramp_rate_mw_per_min * (d * 60) := by
  have hmc : 0 ≤ g.ramp_rate_mw_per_min * (d * 60) :=
    mul_nonneg hramp (by linarith)
  have hmin : min (0 : α) g.capacity_mw = 0 := min_eq_left hcap
  have hnotup : ¬ min (0 : α) g.capacity_mw > g.current_output_mw := by
    rw [hmin]; exact not_lt.mpr (by linarith)
  have hmax : max (min (0 : α) g.capacity_mw)
      (g.current_output_mw - g.ramp_rate_mw_per_min * (d * 60)) =
      g.current_output_mw - g.ramp_rate_mw_per_min * (d * 60) := by
    rw [hmin]; exact max_eq_right (by linarith)
  have hne : ¬ (g.current_output_mw = 0 ∧
      (0 : α) < g.current_output_mw - g.ramp_rate_mw_per_min * (d * 60)) := by
    rintro ⟨h, -⟩; rw [h] at hout; linarith
  simp only [GasPlant.set_output, if_neg hnotup, hmax, if_neg hne,
    if_pos (by linarith : (0 : α) < g.current_output_mw -
      g.ramp_rate_mw_per_min * (d * 60))]
  exact ⟨trivial, trivial⟩

/-- Helper: battery operations never change the configuration fields. -/
theorem Battery.apply_config (b : Battery α) (op : BatteryOp α) :
    (b.apply op).max_capacity_mwh = b.max_capacity_mwh ∧
    (b.apply op).max_charge_rate_mw = b.max_charge_rate_mw ∧
    (b.apply op).max_discharge_rate_mw = b.max_discharge_rate_mw ∧
    (b.apply op).round_trip_efficiency = b.round_trip_efficiency := by
  cases op <;> exact ⟨rfl, rfl, rfl, rfl⟩

/-- Helper: one valid battery operation preserves the charge bounds. -/
theorem Battery.apply_step_inv (b : Battery α) (op : BatteryOp α)
    (hop : op.valid)
    (hchr : 0 ≤ b.max_charge_rate_mw) (hdis : 0 ≤ b.max_discharge_rate_mw)
    (heff : 0 < b.round_trip_efficiency)
    (h0 : 0 ≤ b.current_charge_mwh)
    (h1 : b.current_charge_mwh ≤ b.max_capacity_mwh) :
    0 ≤ (b.apply op).current_charge_mwh ∧
    (b.apply op).current_charge_mwh ≤ b.max_capacity_mwh := by
  cases op with
  | charge p d =>
      obtain ⟨hp, hd⟩ := hop
      simp only [Battery.apply, Battery.charge]
      have e0 : 0 ≤ min (min p b.max_charge_rate_mw * d *
          b.round_trip_efficiency)
          (b.max_capacity_mwh - b.current_charge_mwh) :=
        le_min (mul_nonneg (mul_nonneg (le_min hp hchr) hd) heff.le)
          (by linarith)
      have e1 : min (min p b.max_charge_rate_mw * d *
          b.round_trip_efficiency)
          (b.max_capacity_mwh - b.current_charge_mwh)
          ≤ b.max_capacity_mwh - b.current_charge_mwh := min_le_right _ _
      constructor <;> linarith
  | discharge p d =>
      obtain ⟨hp, hd⟩ := hop
      simp only [Battery.apply, Battery.discharge]
      have e0 : 0 ≤ min (min p b.max_discharge_rate_mw * d /
          b.round_trip_efficiency) b.current_charge_mwh :=
        le_min (div_nonneg (mul_nonneg (le_min hp hdis) hd) heff.le) h0
      have e1 : min (min p b.max_discharge_rate_mw * d /
          b.round_trip_efficiency) b.current_charge_mwh
          ≤ b.current_charge_mwh := min_le_right _ _
      constructor <;> linarith

end Theorems

/-- C3 counterexample: at hour 10 — outside the half-open window [6, 10)
claimed by the spec but inside the closed `6 <= hour <= 10` gate of the
code — the morning sine peak still fires (sin(pi/6) = 1/2), so the
residential component is 375 MW, not base_load x night_factor = 300 MW. -/
theorem C3_counterexample_hour_ten :
    DemandModel.residential_curve ⟨300, 1.5, 50, true⟩ 10 = 375 ∧
    DemandModel.residential_curve ⟨300, 1.5, 50, true⟩ 10 ≠ 300 * 1 := by
  have hs : Real.sin (((10 : ℝ) - 8) * Real.pi / 12) = 1 / 2 := by
    rw [show ((10 : ℝ) - 8) * Real.pi / 12 = Real.pi / 6 by ring]
    exact Real.sin_pi_div_six
  have hv : DemandModel.residential_curve ⟨300, 1.5, 50, true⟩ 10 = 375 := by
    unfold DemandModel.residential_curve
    rw [if_pos (by norm_num : (6 : ℝ) ≤ 10 ∧ (10 : ℝ) ≤ 10),
      if_neg (by norm_num : ¬ ((16 : ℝ) ≤ 10 ∧ (10 : ℝ) ≤ 22)),
      if_neg (by norm_num : ¬ ((0 ≤ (10 : ℝ) ∧ (10 : ℝ) < 6) ∨ (10 : ℝ) ≥ 23)),
      hs]
    show (300 : ℝ) * 1 * (1 + (1.5 - 1) * (0 ⊔ (1 / 2 ⊔ 0))) = 375
    rw [max_eq_left (by norm_num : (0 : ℝ) ≤ 1 / 2),
      max_eq_right (by norm_num : (0 : ℝ) ≤ 1 / 2)]
    norm_num
  exact ⟨hv, by rw [hv]; norm_num⟩

/-- C3 (amended): the sine peaks are gated on the closed windows [6, 10]
and [16, 22]; for every hour of [0, 24) outside those closed windows the
residential component equals base_load x night_factor, with no peak
variation. -/
theorem C3_residential_no_peak_outside_closed_windows
    (m : DemandModel) (hour : ℝ) (_h0 : 0 ≤ hour) (_h24 : hour < 24)
    (hm : ¬ (6 ≤ hour ∧ hour ≤ 10)) (he : ¬ (16 ≤ hour ∧ hour ≤ 22)) :
    m.residential_curve hour =
      m.base_load_mw *
        (if (0 ≤ hour ∧ hour < 6) ∨ hour ≥ 23 then 0.6 else 1) := by
  unfold DemandModel.residential_curve
  rw [if_neg hm, if_neg he]
  simp

/-- Witness for C3 at hour 12 (outside both closed windows). -/
theorem C3_residential_no_peak_outside_closed_windows_witness :
    DemandModel.residential_curve ⟨300, 1.5, 50, true⟩ 12 =
      300 * (if (0 ≤ (12 : ℝ) ∧ (12 : ℝ) < 6) ∨ (12 : ℝ) ≥ 23
        then 0.6 else 1) :=
  C3_residential_no_peak_outside_closed_windows ⟨300, 1.5, 50, true⟩ 12
    (by norm_num) (by norm_num) (by norm_num) (by norm_num)

/-- C4: whenever the post-battery deficit exceeds the 0.1 MW tolerance,
`balance_grid` dispatches the gas plant for exactly that remaining deficit
(whose achieved value `set_output` clamps to capacity and ramp) and sets
`gas_active`; in the scenario demand 450 MW, wind 50 MW, solar 0 MW,
battery empty, the full remaining deficit commanded is 400 MW and gas is
marked active with positive output. -/
theorem C4_deficit_dispatches_gas {α : Type} [LinearOrderedField α] :
    (∀ (c : GridController) (demand_mw wind_output solar_output
        duration_hours : α) (battery : Battery α) (gas_plant : GasPlant α),
      ¬ wind_output + solar_output - demand_mw > 0 →
      |wind_output + solar_output - demand_mw| -
          (battery.discharge |wind_output + solar_output - demand_mw|
            duration_hours).2 > 1 / 10 →
      (c.balance_grid demand_mw wind_output solar_output battery gas_plant
          duration_hours).1.gas_output =
        (gas_plant.set_output
          (|wind_output + solar_output - demand_mw| -
            (battery.discharge |wind_output + solar_output - demand_mw|
              duration_hours).2) duration_hours).2 ∧
      (c.balance_grid demand_mw wind_output solar_output battery gas_plant
          duration_hours).2.2.1 =
        (gas_plant.set_output
          (|wind_output + solar_output - demand_mw| -
            (battery.discharge |wind_output + solar_output - demand_mw|
              duration_hours).2) duration_hours).1 ∧
      (c.balance_grid demand_mw wind_output solar_output battery gas_plant
          duration_hours).2.2.2.gas_active = true) ∧
    ((⟨false⟩ : GridController).balance_grid 450 50 0
        (Battery.init (400 : ℚ) 100 100 0.95 0) (GasPlant.init 300 150 0.5 10)
        (1 / 4)).2.2.2.gas_active = true ∧
    ((⟨false⟩ : GridController).balance_grid 450 50 0
        (Battery.init (400 : ℚ) 100 100 0.95 0) (GasPlant.init 300 150 0.5 10)
        (1 / 4)).1.gas_output =
      ((GasPlant.init (300 : ℚ) 150 0.5 10).set_output 400 (1 / 4)).2 ∧
    0 < ((⟨false⟩ : GridController).balance_grid 450 50 0
        (Battery.init (400 : ℚ) 100 100 0.95 0) (GasPlant.init 300 150 0.5 10)
        (1 / 4)).1.gas_output := by
  refine ⟨?_, ?_, ?_, ?_⟩
  · intro c demand_mw wind_output solar_output duration_hours battery gas_plant
      hnosurp hbig
    simp only [GridController.balance_grid, if_neg hnosurp, if_pos hbig]
    exact ⟨trivial, trivial, trivial⟩
  · norm_num [GridController.balance_grid, Battery.init, Battery.discharge,
      GasPlant.init, GasPlant.set_output]
  · norm_num [GridController.balance_grid, Battery.init, Battery.discharge,
      GasPlant.init, GasPlant.set_output]
  · norm_num [GridController.balance_grid, Battery.init, Battery.discharge,
      GasPlant.init, GasPlant.set_output]

/-- Witness for C4 at the spec scenario (demand 450, wind 50, solar 0,
empty battery): the general deficit branch applies and marks gas active. -/
theorem C4_deficit_dispatches_gas_witness :
    ((⟨false⟩ : GridController).balance_grid (450 : ℚ) 50 0
        (Battery.init 400 100 100 0.95 0) (GasPlant.init 300 150 0.5 10)
        (1 / 4)).1.gas_output =
      ((GasPlant.init (300 : ℚ) 150 0.5 10).set_output
        (|(50 : ℚ) + 0 - 450| -
          ((Battery.init (400 : ℚ) 100 100 0.95 0).discharge
            |(50 : ℚ) + 0 - 450| (1 / 4)).2) (1 / 4)).2 ∧
    ((⟨false⟩ : GridController).balance_grid (450 : ℚ) 50 0
        (Battery.init 400 100 100 0.95 0) (GasPlant.init 300 150 0.5 10)
        (1 / 4)).2.2.2.gas_active = true := by
  have h := (C4_deficit_dispatches_gas (α := ℚ)).1 ⟨false⟩ 450 50 0 (1 / 4)
    (Battery.init 400 100 100 0.95 0) (GasPlant.init 300 150 0.5 10)
    (by norm_num)
    (by
      have habs : |(50 : ℚ) + 0 - 450| = 400 := by
        rw [abs_of_nonpos (by norm_num)]; norm_num
      norm_num [habs, Battery.init, Battery.discharge])
  exact ⟨h.1, h.2.2⟩

/-- C5: for every battery whose configuration is in the data-model ranges
(positive capacity, nonnegative charge/discharge rate limits, positive
efficiency) and whose charge starts inside [0, capacity], after any finite
sequence of charge/discharge calls with nonnegative power and duration the
charge still lies in [0, capacity]. -/
theorem C5_battery_charge_bounds_any_sequence {α : Type}
    [LinearOrderedField α] (b : Battery α) (ops : List (BatteryOp α))
    (hcap : 0 < b.max_capacity_mwh)
    (hchr : 0 ≤ b.max_charge_rate_mw)
    (hdis : 0 ≤ b.max_discharge_rate_mw)
    (heff : 0 < b.round_trip_efficiency)
    (h0 : 0 ≤ b.current_charge_mwh)
    (h1 : b.current_charge_mwh ≤ b.max_capacity_mwh)
    (hops : ∀ op ∈ ops, op.valid) :
    0 ≤ (b.run ops).current_charge_mwh ∧
    (b.run ops).current_charge_mwh ≤ (b.run ops).max_capacity_mwh := by
  induction ops generalizing b with
  | nil => exact ⟨h0, h1⟩
  | cons op rest ih =>
      obtain ⟨c1, c2, c3, c4⟩ := Battery.apply_config b op
      have hv : op.valid := hops op (List.mem_cons_self op rest)
      have hstep := Battery.apply_step_inv b op hv hchr hdis heff h0 h1
      have hrun : Battery.run b (op :: rest) =
          Battery.run (b.apply op) rest := rfl
      rw [hrun]
      exact ih (b.apply op) (by rw [c1]; exact hcap) (by rw [c2]; exact hchr)
        (by rw [c3]; exact hdis) (by rw [c4]; exact heff) hstep.1
        (by rw [c1]; exact hstep.2)
        (fun op' h' => hops op' (List.mem_cons_of_mem op h'))

/-- Witness for C5: the default battery under a charge, an over-deep
discharge and an over-full charge keeps its charge inside [0, capacity]. -/
theorem C5_battery_charge_bounds_any_sequence_witness :
    0 ≤ ((Battery.init (400 : ℚ) 100 100 0.95 200).run
      [BatteryOp.charge 80 1, BatteryOp.discharge 100 2,
        BatteryOp.charge 500 1]).current_charge_mwh ∧
    ((Battery.init (400 : ℚ) 100 100 0.95 200).run
      [BatteryOp.charge 80 1, BatteryOp.discharge 100 2,
        BatteryOp.charge 500 1]).current_charge_mwh ≤
      ((Battery.init (400 : ℚ) 100 100 0.95 200).run
        [BatteryOp.charge 80 1, BatteryOp.discharge 100 2,
          BatteryOp.charge 500 1]).max_capacity_mwh :=
  C5_battery_charge_bounds_any_sequence (Battery.init 400 100 100 0.95 200)
    [BatteryOp.charge 80 1, BatteryOp.discharge 100 2, BatteryOp.charge 500 1]
    (by norm_num [Battery.init]) (by norm_num [Battery.init])
    (by norm_num [Battery.init]) (by norm_num [Battery.init])
    (by norm_num [Battery.init, min_def]) (by norm_num [Battery.init, min_def])
    (by norm_num [List.forall_mem_cons, BatteryOp.valid])

/-- C6: for every gas plant in a data-model-conforming state (nonnegative
ramp rate, current output inside [0, capacity]) and every `set_output` call
with nonnegative target and duration, the achieved output moves by at most
ramp_rate x minutes and stays inside [0, capacity]; `shutdown` forces the
output to 0 immediately regardless of the ramp bound. -/
theorem C6_gas_ramp_bound_and_range {α : Type} [LinearOrderedField α]
    (g : GasPlant α) (target_mw duration_hours : α)
    (hramp : 0 ≤ g.ramp_rate_mw_per_min) (hd : 0 ≤ duration_hours)
    (htgt : 0 ≤ target_mw) (h0 : 0 ≤ g.current_output_mw)
    (h1 : g.current_output_mw ≤ g.capacity_mw) :
    |(g.set_output target_mw duration_hours).1.current_output_mw -
        g.current_output_mw|
      ≤ g.ramp_rate_mw_per_min * (duration_hours * 60) ∧
    0 ≤ (g.set_output target_mw duration_hours).1.current_output_mw ∧
    (g.set_output target_mw duration_hours).1.current_output_mw
      ≤ g.capacity_mw ∧
    g.shutdown.current_output_mw = 0 := by
  have hmc : 0 ≤ g.ramp_rate_mw_per_min * (duration_hours * 60) :=
    mul_nonneg hramp (by linarith)
  have hT0 : 0 ≤ min target_mw g.capacity_mw := le_min htgt (h0.trans h1)
  have hT1 : min target_mw g.capacity_mw ≤ g.capacity_mw := min_le_right _ _
  rw [GasPlant.set_output_current_eq]
  refine ⟨?_, ?_, ?_, rfl⟩
  · rw [abs_le]
    split_ifs with hc
    · have e1 : min (min target_mw g.capacity_mw)
          (g.current_output_mw + g.ramp_rate_mw_per_min * (duration_hours * 60))
          ≤ g.current_output_mw +
            g.ramp_rate_mw_per_min * (duration_hours * 60) :=
        min_le_right _ _
      have e2 : g.current_output_mw ≤ min (min target_mw g.capacity_mw)
          (g.current_output_mw +
            g.ramp_rate_mw_per_min * (duration_hours * 60)) :=
        le_min hc.le (by linarith)
      constructor <;> linarith
    · have e1 : g.current_output_mw -
          g.ramp_rate_mw_per_min * (duration_hours * 60)
          ≤ max (min target_mw g.capacity_mw)
            (g.current_output_mw -
              g.ramp_rate_mw_per_min * (duration_hours * 60)) :=
        le_max_right _ _
      have e2 : max (min target_mw g.capacity_mw)
          (g.current_output_mw - g.ramp_rate_mw_per_min * (duration_hours * 60))
          ≤ g.current_output_mw := max_le (not_lt.mp hc) (by linarith)
      constructor <;> linarith
  · split_ifs with hc
    · have := le_min hc.le (by linarith :
        g.current_output_mw ≤ g.current_output_mw +
          g.ramp_rate_mw_per_min * (duration_hours * 60))
      linarith
    · have := le_max_left (min target_mw g.capacity_mw)
        (g.current_output_mw - g.ramp_rate_mw_per_min * (duration_hours * 60))
      linarith
  · split_ifs with hc
    · have := min_le_left (min target_mw g.capacity_mw)
        (g.current_output_mw + g.ramp_rate_mw_per_min * (duration_hours * 60))
      linarith
    · have := max_le
        (by linarith : min target_mw g.capacity_mw ≤ g.capacity_mw)
        (by linarith : g.current_output_mw -
          g.ramp_rate_mw_per_min * (duration_hours * 60) ≤ g.capacity_mw)
      linarith

/-- Witness for C6: a plant at 200 MW of 300 MW capacity commanded to 0 for
a quarter hour moves by at most 150 MW, stays in range, and shuts down to
0 on demand. -/
theorem C6_gas_ramp_bound_and_range_witness :
    |((⟨300, 150, 1 / 2, 10, 200, 0, 0, 0, 0⟩ :
        GasPlant ℚ).set_output 0 (1 / 4)).1.current_output_mw - 200|
      ≤ 10 * ((1 / 4) * 60) ∧
    0 ≤ ((⟨300, 150, 1 / 2, 10, 200, 0, 0, 0, 0⟩ :
        GasPlant ℚ).set_output 0 (1 / 4)).1.current_output_mw ∧
    ((⟨300, 150, 1 / 2, 10, 200, 0, 0, 0, 0⟩ :
        GasPlant ℚ).set_output 0 (1 / 4)).1.current_output_mw ≤ 300 ∧
    (⟨300, 150, 1 / 2, 10, 200, 0, 0, 0, 0⟩ :
        GasPlant ℚ).shutdown.current_output_mw = 0 :=
  C6_gas_ramp_bound_and_range
    (⟨300, 150, 1 / 2, 10, 200, 0, 0, 0, 0⟩ : GasPlant ℚ) 0 (1 / 4)
    (by norm_num) (by norm_num) (by norm_num) (by norm_num) (by norm_num)

/-- C7: the wind power curve returns (0, shutdown_storm) exactly for
speeds of at least the 25 m/s cut-out, (0, insufficient_wind) exactly
below the 3 m/s cut-in, full capacity with rated_power exactly on
[12, 25), the cubic ramp fraction of capacity with ramping on [3, 12),
and 450 MW at 15 m/s for 50 turbines of 9 MW. -/
theorem C7_wind_power_curve {α : Type} [LinearOrderedField α]
    (rated_power_mw : α) (num_turbines : ℕ) (w : α) :
    ((WindTurbine.init rated_power_mw num_turbines).calculate_power w
        = (0, "shutdown_storm") ↔ 25 ≤ w) ∧
    ((WindTurbine.init rated_power_mw num_turbines).calculate_power w
        = (0, "insufficient_wind") ↔ w < 3) ∧
    ((WindTurbine.init rated_power_mw num_turbines).calculate_power w
        = (rated_power_mw * (num_turbines : α), "rated_power")
      ↔ 12 ≤ w ∧ w < 25) ∧
    (3 ≤ w → w < 12 →
      (WindTurbine.init rated_power_mw num_turbines).calculate_power w
        = (rated_power_mw * (num_turbines : α) * ((w - 3) / (12 - 3)) ^ 3,
           "ramping")) ∧
    (WindTurbine.init (9 : α) 50).calculate_power 15 = (450, "rated_power") := by
  unfold WindTurbine.calculate_power WindTurbine.init
  refine ⟨?_, ?_, ?_, ?_, ?_⟩
  · split_ifs with h1 h2 h3 <;> simpa using h1
  · split_ifs with h1 h2 h3 <;> first | (simpa using h2) | (simp; linarith)
  · split_ifs with h1 h2 h3 <;>
      first | (simpa using h3) | (simp; intro h; linarith)
  · intro ha hb
    split_ifs with h1 h2 h3
    · linarith
    · linarith
    · exact absurd h3.1 (by linarith)
    · rfl
  · split_ifs with h1 h2 h3
    · exact absurd h1 (by norm_num)
    · exact absurd h2 (by norm_num)
    · norm_num
    · exact absurd (by norm_num : (12 : α) ≤ 15 ∧ (15 : α) < 25) h3

/-- Witness for C7 in the ramping band at 5 m/s. -/
theorem C7_wind_power_curve_witness :
    (WindTurbine.init (9 : ℚ) 50).calculate_power 5
      = (9 * ((50 : ℕ) : ℚ) * ((5 - 3) / (12 - 3)) ^ 3, "ramping") :=
  (C7_wind_power_curve (9 : ℚ) 50 5).2.2.2.1 (by norm_num) (by norm_num)

/-- C8: `Battery.charge` clamps the requested power to the charge-rate
limit, stores that power times duration times efficiency further clamped
to the free headroom, and returns the grid-side draw (stored energy divided
by duration times efficiency), 0 for zero duration; from empty with 400 MWh
capacity and efficiency 0.95, charge(100, 1) stores 95 MWh and draws
100 MW. -/
theorem C8_battery_charge_spec {α : Type} [LinearOrderedField α] :
    (∀ (b : Battery α) (power_mw duration_hours : α),
      0 ≤ power_mw → 0 ≤ duration_hours →
      (b.charge power_mw duration_hours).1.current_charge_mwh
          = b.current_charge_mwh +
            min (min power_mw b.max_charge_rate_mw * duration_hours *
                b.round_trip_efficiency)
              (b.max_capacity_mwh - b.current_charge_mwh) ∧
      (b.charge power_mw duration_hours).2
          = (if 0 < duration_hours then
              min (min power_mw b.max_charge_rate_mw * duration_hours *
                  b.round_trip_efficiency)
                (b.max_capacity_mwh - b.current_charge_mwh) /
                (duration_hours * b.round_trip_efficiency)
            else 0)) ∧
    ((Battery.init (400 : ℚ) 100 100 0.95 0).charge 100 1).1.current_charge_mwh
        = 95 ∧
    ((Battery.init (400 : ℚ) 100 100 0.95 0).charge 100 1).2 = 100 := by
  refine ⟨fun b p d _ _ => ⟨rfl, rfl⟩, ?_, ?_⟩
  · norm_num [Battery.charge, Battery.init]
  · norm_num [Battery.charge, Battery.init]

/-- Witness for C8: the charge equations applied to the scenario battery
at power 100 MW for one hour. -/
theorem C8_battery_charge_spec_witness :
    ((Battery.init (400 : ℚ) 100 100 0.95 0).charge 100 1).1.current_charge_mwh
        = (Battery.init (400 : ℚ) 100 100 0.95 0).current_charge_mwh +
          min (min 100 (Battery.init (400 : ℚ) 100 100 0.95
                0).max_charge_rate_mw * 1 *
              (Battery.init (400 : ℚ) 100 100 0.95 0).round_trip_efficiency)
            ((Battery.init (400 : ℚ) 100 100 0.95 0).max_capacity_mwh -
              (Battery.init (400 : ℚ) 100 100 0.95 0).current_charge_mwh) :=
  ((C8_battery_charge_spec (α := ℚ)).1 (Battery.init 400 100 100 0.95 0)
    100 1 (by norm_num) (by norm_num)).1

/-- C9: on a surplus tick (renewables exceed demand) `balance_grid` leaves
every field of the gas plant unchanged and reports zero gas output. -/
theorem C9_surplus_leaves_gas_untouched {α : Type} [LinearOrderedField α]
    (c : GridController) (demand_mw wind_output solar_output
      duration_hours : α) (battery : Battery α) (gas_plant : GasPlant α)
    (h : wind_output + solar_output - demand_mw > 0) :
    (c.balance_grid demand_mw wind_output solar_output battery gas_plant
        duration_hours).2.2.1 = gas_plant ∧
    (c.balance_grid demand_mw wind_output solar_output battery gas_plant
        duration_hours).1.gas_output = 0 := by
  simp [GridController.balance_grid, h]

/-- Witness for C9 at the high-wind scenario (demand 400, wind 500,
solar 50). -/
theorem C9_surplus_leaves_gas_untouched_witness :
    ((⟨false⟩ : GridController).balance_grid (400 : ℚ) 500 50
        (Battery.init 400 100 100 0.95 200) (GasPlant.init 300 150 0.5 10)
        (1 / 4)).2.2.1 = GasPlant.init 300 150 0.5 10 ∧
    ((⟨false⟩ : GridController).balance_grid (400 : ℚ) 500 50
        (Battery.init 400 100 100 0.95 200) (GasPlant.init 300 150 0.5 10)
        (1 / 4)).1.gas_output = 0 :=
  C9_surplus_leaves_gas_untouched ⟨false⟩ 400 500 50 (1 / 4)
    (Battery.init 400 100 100 0.95 200) (GasPlant.init 300 150 0.5 10)
    (by norm_num)

/-- C10: when the post-battery deficit is within the 0.1 MW tolerance,
`balance_grid` commands the gas plant to 0 but discards the ramp-limited
return: the reported gas output is exactly 0 and `total_supply` excludes
the residual plant output, which stays positive and keeps accruing fuel
cost and CO2 whenever the previous output exceeded
ramp_rate x duration x 60. -/
theorem C10_small_deficit_discards_residual_output {α : Type}
    [LinearOrderedField α] (c : GridController)
    (demand_mw wind_output solar_output duration_hours : α)
    (battery : Battery α) (gas_plant : GasPlant α)
    (hnosurp : ¬ wind_output + solar_output - demand_mw > 0)
    (hsmall : ¬ |wind_output + solar_output - demand_mw| -
        (battery.discharge |wind_output + solar_output - demand_mw|
          duration_hours).2 > 1 / 10)
    (hramp : 0 ≤ gas_plant.ramp_rate_mw_per_min) (hd : 0 ≤ duration_hours)
    (hcap : 0 ≤ gas_plant.capacity_mw)
    (hout : gas_plant.ramp_rate_mw_per_min * (duration_hours * 60) <
      gas_plant.current_output_mw) :
    (c.balance_grid demand_mw wind_output solar_output battery gas_plant
        duration_hours).1.gas_output = 0 ∧
    (c.balance_grid demand_mw wind_output solar_output battery gas_plant
        duration_hours).2.2.1.current_output_mw =
      gas_plant.current_output_mw -
        gas_plant.ramp_rate_mw_per_min * (duration_hours * 60) ∧
    0 < (c.balance_grid demand_mw wind_output solar_output battery gas_plant
        duration_hours).2.2.1.current_output_mw ∧
    (c.balance_grid demand_mw wind_output solar_output battery gas_plant
        duration_hours).2.2.1.total_fuel_cost_eur =
      gas_plant.total_fuel_cost_eur +
        (gas_plant.current_output_mw -
          gas_plant.ramp_rate_mw_per_min * (duration_hours * 60)) *
          duration_hours * gas_plant.fuel_cost_per_mwh ∧
    (c.balance_grid demand_mw wind_output solar_output battery gas_plant
        duration_hours).2.2.1.total_co2_tons =
      gas_plant.total_co2_tons +
        (gas_plant.current_output_mw -
          gas_plant.ramp_rate_mw_per_min * (duration_hours * 60)) *
          duration_hours * gas_plant.co2_per_mwh_tons ∧
    (c.balance_grid demand_mw wind_output solar_output battery gas_plant
        duration_hours).1.total_supply =
      wind_output + solar_output +
        (c.balance_grid demand_mw wind_output solar_output battery gas_plant
          duration_hours).1.battery_action := by
  obtain ⟨hg, -⟩ := GasPlant.set_output_zero_eval gas_plant duration_hours
    hramp hd hcap hout
  simp only [GridController.balance_grid, if_neg hnosurp, if_neg hsmall, hg]
  refine ⟨?_, ?_, ?_, ?_, ?_, ?_⟩ <;> first | trivial | linarith

/-- Witness for C10: a balanced tick (demand, wind, solar all 0) with the
plant at 200 MW and allowance 150 MW leaves a 50 MW residual with accrued
cost and emissions while reporting zero gas output. -/
theorem C10_small_deficit_discards_residual_output_witness :
    ((⟨false⟩ : GridController).balance_grid (0 : ℚ) 0 0
        (Battery.init 400 100 100 0.95 0)
        (⟨300, 150, 1 / 2, 10, 200, 0, 0, 0, 0⟩ : GasPlant ℚ)
        (1 / 4)).1.gas_output = 0 ∧
    ((⟨false⟩ : GridController).balance_grid (0 : ℚ) 0 0
        (Battery.init 400 100 100 0.95 0)
        (⟨300, 150, 1 / 2, 10, 200, 0, 0, 0, 0⟩ : GasPlant ℚ)
        (1 / 4)).2.2.1.current_output_mw = 200 - 10 * ((1 / 4) * 60) ∧
    0 < ((⟨false⟩ : GridController).balance_grid (0 : ℚ) 0 0
        (Battery.init 400 100 100 0.95 0)
        (⟨300, 150, 1 / 2, 10, 200, 0, 0, 0, 0⟩ : GasPlant ℚ)
        (1 / 4)).2.2.1.current_output_mw ∧
    ((⟨false⟩ : GridController).balance_grid (0 : ℚ) 0 0
        (Battery.init 400 100 100 0.95 0)
        (⟨300, 150, 1 / 2, 10, 200, 0, 0, 0, 0⟩ : GasPlant ℚ)
        (1 / 4)).2.2.1.total_fuel_cost_eur =
      0 + (200 - 10 * ((1 / 4) * 60)) * (1 / 4) * 150 ∧
    ((⟨false⟩ : GridController).balance_grid (0 : ℚ) 0 0
        (Battery.init 400 100 100 0.95 0)
        (⟨300, 150, 1 / 2, 10, 200, 0, 0, 0, 0⟩ : GasPlant ℚ)
        (1 / 4)).2.2.1.total_co2_tons =
      0 + (200 - 10 * ((1 / 4) * 60)) * (1 / 4) * (1 / 2) ∧
    ((⟨false⟩ : GridController).balance_grid (0 : ℚ) 0 0
        (Battery.init 400 100 100 0.95 0)
        (⟨300, 150, 1 / 2, 10, 200, 0, 0, 0, 0⟩ : GasPlant ℚ)
        (1 / 4)).1.total_supply =
      0 + 0 + ((⟨false⟩ : GridController).balance_grid (0 : ℚ) 0 0
        (Battery.init 400 100 100 0.95 0)
        (⟨300, 150, 1 / 2, 10, 200, 0, 0, 0, 0⟩ : GasPlant ℚ)
        (1 / 4)).1.battery_action :=
  C10_small_deficit_discards_residual_output ⟨false⟩ 0 0 0 (1 / 4)
    (Battery.init 400 100 100 0.95 0)
    (⟨300, 150, 1 / 2, 10, 200, 0, 0, 0, 0⟩ : GasPlant ℚ)
    (by norm_num)
    (by norm_num [Battery.init, Battery.discharge])
    (by norm_num) (by norm_num) (by norm_num) (by norm_num)

set_option maxHeartbeats 2000000 in
/-- C1 (code behavior at the failing input): starting from the freshly
constructed engine, setting the wind to 15 m/s through the control surface
and running one tick with a zero wind draw (wind becomes 14.65 m/s at
hour 0) produces a surplus tick: the controller charges the battery
(stored charge rises from 200 to 223.75 MWh and the signed battery action
of the balance result is -100 MW), yet `tick` yields no snapshot, because
the pydantic `BatteryState` field `current_output_mw` (inherited bound
`ge=0.0`) rejects the negative signed battery action — construction
raises instead of returning the GridState that the spec promises. -/
theorem C1_charging_tick_snapshot_raises :
    ((SimulationEngine.init.set_wind 15).tick ⟨0, none, none⟩).2 = none ∧
    ((SimulationEngine.init.set_wind 15).tick
        ⟨0, none, none⟩).1.battery.current_charge_mwh = 895 / 4 ∧
    ((⟨false⟩ : GridController).balance_grid (230 : ℝ) 450 0
        (Battery.init 400 100 100 0.95 200)
        (GasPlant.init 300 150 0.5 10) (1 / 4)).1.battery_action = -100 ∧
    mkBatteryState 100 400 (895 / 4) (-100) .online = none := by
  norm_num [SimulationEngine.tick, SimulationEngine.init,
    SimulationEngine.set_wind, WeatherSystem.set_wind, WeatherSystem.update,
    WindTurbine.init, WindTurbine.calculate_power, SolarArray.calculate_power,
    DemandModel.calculate_demand, DemandModel.residential_curve,
    DemandModel.temperature_load, GridController.balance_grid, Battery.init,
    Battery.charge, Battery.discharge, GasPlant.init, GasPlant.set_output,
    TimeManager.time_of_day, TimeManager.tick,
    SimulationEngine.calculate_renewable_percent,
    SimulationEngine.calculate_uptime_percent, mkWeatherState, mkDemandState,
    mkWindTurbineState, mkSolarArrayState, mkBatteryState, mkGasPlantState,
    mkMetrics, min_def, max_def]

set_option maxHeartbeats 4000000 in
/-- C2 (code behavior at the failing input): two calm ticks (zero draws,
wind stays at 8 m/s, the gas plant runs on both) from the fresh engine.
Each tick adds the *cumulative* plant totals to the metrics instead of the
per-tick increments, so after the second tick `total_co2_kg` is
535000/27 kg (about 19815) while the plant has emitted only
1070000/81 kg (about 13210), and `total_cost_eur` is 160500/27 EUR while
the incurred fuel cost is 107000/27 EUR — the counted totals are not the
running totals of CO2 emitted and cost incurred that the spec promises. -/
theorem C2_cumulative_metrics_double_count :
    ((SimulationEngine.init.tick ⟨0, none, none⟩).1.tick
        ⟨0, none, none⟩).1.cumulative_metrics.total_co2_kg =
      535000 / 27 ∧
    ((SimulationEngine.init.tick ⟨0, none, none⟩).1.tick
        ⟨0, none, none⟩).1.gas.total_co2_tons * 1000 = 1070000 / 81 ∧
    ((SimulationEngine.init.tick ⟨0, none, none⟩).1.tick
        ⟨0, none, none⟩).1.cumulative_metrics.total_co2_kg ≠
      ((SimulationEngine.init.tick ⟨0, none, none⟩).1.tick
        ⟨0, none, none⟩).1.gas.total_co2_tons * 1000 ∧
    ((SimulationEngine.init.tick ⟨0, none, none⟩).1.tick
        ⟨0, none, none⟩).1.cumulative_metrics.total_cost_eur ≠
      ((SimulationEngine.init.tick ⟨0, none, none⟩).1.tick
        ⟨0, none, none⟩).1.gas.total_fuel_cost_eur := by
  have ha : |(12380 : ℝ) / 81| = 12380 / 81 := abs_of_nonneg (by norm_num)
  have hb : |(6250 : ℝ) / 81 - 230| = 12380 / 81 := by
    rw [abs_of_nonpos (by norm_num)]; norm_num
  norm_num [ha, hb, SimulationEngine.tick, SimulationEngine.init,
    WeatherSystem.update, WindTurbine.init, WindTurbine.calculate_power,
    SolarArray.calculate_power, DemandModel.calculate_demand,
    DemandModel.residential_curve, DemandModel.temperature_load,
    GridController.balance_grid, Battery.init, Battery.charge,
    Battery.discharge, GasPlant.init, GasPlant.set_output,
    TimeManager.time_of_day, TimeManager.tick,
    SimulationEngine.calculate_renewable_percent,
    SimulationEngine.calculate_uptime_percent, mkWeatherState, mkDemandState,
    mkWindTurbineState, mkSolarArrayState, mkBatteryState, mkGasPlantState,
    mkMetrics, min_def, max_def]
